import Mathlib

/-
  Verification of the browser-side email dashboard
  (src/email_web_ui/script.js and src/email_web_ui/chat_script.js).

  The JavaScript is shallowly embedded: each event handler becomes a pure
  Lean function from the relevant state plus the outcomes of its network
  calls to the new state together with the list of network requests it
  issued (in issue order).  JS strings are Lean Strings; a JS value that
  may be undefined or empty is modelled as a String where the empty string
  stands for the falsy cases, with the JS "x || d" idiom embedded as jsOr.
  The single-threaded event loop is modelled for the overlapping
  draft-reply flows as an explicit machine consuming an event list.
-/

namespace EmailUC

/-- JS "s || d" for strings: falsy (empty or absent) strings fall back to d. -/
def jsOr (s d : String) : String := if s.data.isEmpty then d else s

/-- Truthiness test for a JS string value (empty or absent is falsy). -/
def strEmpty (s : String) : Bool := s.data.isEmpty

/-- JS String.prototype.trim, modelled on the character list
(whitespace is the ASCII whitespace recognised by Char.isWhitespace). -/
def jsTrim (s : String) : String :=
  String.mk (((s.data.dropWhile Char.isWhitespace).reverse.dropWhile Char.isWhitespace).reverse)

/-- JS String.prototype.toLowerCase, per-character lowering. -/
def jsToLower (s : String) : String := String.mk (s.data.map Char.toLower)

/-- JS String.prototype.startsWith. -/
def jsStartsWith (s p : String) : Bool := p.data.isPrefixOf s.data

/-- The apostrophe character (U+0027). -/
def apos : Char := Char.ofNat 39

/-- One global single-character replacement, the semantics of
JS s.replace(/c/g, r). -/
def replChar (c : Char) (r : List Char) : List Char → List Char
  | [] => []
  | x :: xs => (if x = c then r else [x]) ++ replChar c r xs

/-- escapeHtml from script.js line 343 (identical copy in chat_script.js
line 178): five sequential global replaces, ampersand first. -/
def escapeHtmlData (s : List Char) : List Char :=
  replChar apos "&#039;".data
    (replChar '"' "&quot;".data
      (replChar '>' "&gt;".data
        (replChar '<' "&lt;".data
          (replChar '&' "&amp;".data s))))

/-- escapeHtml on Strings.  The JS function returns the empty string on a
non-string argument; only string arguments are modelled. -/
def escapeHtml (s : String) : String := String.mk (escapeHtmlData s.data)

/-- Character class [\w\.-] of the regex in extractEmailAddress
(ASCII letters, digits, underscore, dot, hyphen). -/
def isWordChar (c : Char) : Bool :=
  c.isAlphanum || c == '_' || c == '.' || c == '-'

/-- Match of the regex ([\w\.-]+@[\w\.-]+) anchored at the head of the list.
Greedy runs are maximal; because the at-sign is not in the class, no
shorter first run can match, so span captures the JS backtracking search. -/
def matchEmailAt (l : List Char) : Option (List Char) :=
  let p := l.span isWordChar
  if p.1.isEmpty then none
  else
    match p.2 with
    | '@' :: rest2 =>
      let q := rest2.span isWordChar
      if q.1.isEmpty then none else some (p.1 ++ '@' :: q.1)
    | _ => none

/-- Leftmost regex match: JS String.prototype.match tries each start
position from the left. -/
def findFirstEmail : List Char → Option (List Char)
  | [] => none
  | c :: cs =>
    match matchEmailAt (c :: cs) with
    | some m => some m
    | none => findFirstEmail cs

/-- extractEmailAddress from script.js lines 337-341. -/
def extractEmailAddress (fromHeader : String) : String :=
  if strEmpty fromHeader then ""
  else
    match findFirstEmail fromHeader.data with
    | some m => String.mk m
    | none => fromHeader

/-- The reply-subject pre-fill from script.js line 218:
subject && subject.toLowerCase().startsWith("re:") ? subject
: "Re: " plus (subject || ""). -/
def prefillReplySubject (subject : String) : String :=
  if !strEmpty subject && jsStartsWith (jsToLower subject) "re:" then subject
  else "Re: " ++ jsOr subject ""

/-- One entry of the inbox listing (the fields read from each element of
the /emails response in fetchAndDisplayEmails, script.js lines 128-161). -/
structure EmailSummary where
  platform : String
  id : String
  threadId : String
  subject : String
  from_ : String
  date : String
  snippet : String
  message_id_header : String
  references_header : String
  in_reply_to_header : String

/-- The platform badge span of script.js lines 129-131. -/
def platformBadge (platform : String) : String :=
  let cls := if platform == "gmail" then "badge-danger" else "badge-info"
  let nm := if platform == "gmail" then "Gmail" else "Outlook"
  "<span class=\"badge " ++ cls ++ " platform-badge\">" ++ nm ++ "</span>"

/-- The innerHTML template for one email list item, script.js lines
146-161.  Insignificant template whitespace is compressed to single
newlines; dateStr (a locale-formatted date, not modelled) is a parameter.
Interpolations carry escapeHtml exactly where the source applies it:
subject, date title, from, snippet and the three mail headers are escaped,
while platform, id and threadId are interpolated raw. -/
def listItemHtml (e : EmailSummary) (dateStr : String) : String :=
  "<div class=\"d-flex w-100 justify-content-between\">\n" ++
  "<h5 class=\"mb-1\">" ++ platformBadge e.platform ++
    escapeHtml (jsOr e.subject "(No Subject)") ++ "</h5>\n" ++
  "<small title=\"" ++ escapeHtml e.date ++ "\">" ++ dateStr ++ "</small>\n" ++
  "</div>\n" ++
  "<p class=\"mb-1\"><strong>From:</strong> " ++
    escapeHtml (jsOr e.from_ "N/A") ++ "</p>\n" ++
  "<small class=\"email-snippet\">" ++ escapeHtml (jsOr e.snippet "") ++ "</small>\n" ++
  "<button class=\"btn btn-sm btn-outline-primary float-right draft-reply-btn\"\n" ++
  "data-platform=\"" ++ e.platform ++ "\"\n" ++
  "data-id=\"" ++ e.id ++ "\"\n" ++
  "data-thread-id=\"" ++ jsOr e.threadId "" ++ "\"\n" ++
  "data-message-id-header=\"" ++ escapeHtml (jsOr e.message_id_header "") ++ "\"\n" ++
  "data-references-header=\"" ++ escapeHtml (jsOr e.references_header "") ++ "\"\n" ++
  "data-in-reply-to-header=\"" ++ escapeHtml (jsOr e.in_reply_to_header "") ++ "\"\n" ++
  ">Draft Reply</button>"

/-- Whether the needle occurs as a contiguous substring of the haystack. -/
def containsSub (needle : List Char) : List Char → Bool
  | [] => needle.isPrefixOf []
  | c :: cs => needle.isPrefixOf (c :: cs) || containsSub needle cs

/-- The spec example input for escapeHtml: the seven characters
less-than s c r i p t greater-than, then ampersand, double quote,
apostrophe. -/
def escTestInput : String := "<script>&\"" ++ String.singleton apos

/-- A malicious message id that closes the data-id attribute and opens a
script element. -/
def evilId : String := "\"><script>alert(1)</script>"

/-- An inbox entry whose id field carries the malicious payload. -/
def evilEmail : EmailSummary :=
  { platform := "gmail", id := evilId, threadId := "t1", subject := "Hello",
    from_ := "mallory@evil.example", date := "2025-01-01", snippet := "hi",
    message_id_header := "<m1@x>", references_header := "", in_reply_to_header := "" }

/-- A string whose character list is empty is the empty string. -/
lemma eq_empty_of_strEmpty (s : String) (h : s.data.isEmpty = true) : s = "" := by
  cases s with
  | mk l =>
    cases l with
    | nil => rfl
    | cons a t => simp at h

/-- Claim C6: for every subject S that does not start with "re:" ignoring
case, the pre-filled reply subject is "Re: " followed by S; for every S
that does start with "Re:" ignoring case, it is S unchanged.  Ignoring
case is rendered, as in the source, by lowering S and testing the prefix
"re:".  The source guards with JS truthiness of S, which coincides with
this statement also at S = "". -/
theorem C6_reply_subject_prefill (S : String) :
    prefillReplySubject S =
      if jsStartsWith (jsToLower S) "re:" then S else "Re: " ++ S := by
  by_cases h : S.data.isEmpty = true
  · have hS : S = "" := eq_empty_of_strEmpty S h
    subst hS
    decide
  · rw [Bool.not_eq_true] at h
    simp [prefillReplySubject, jsOr, strEmpty, h]

/-- Claim C7: extractEmailAddress returns the first email-address-shaped
token of its argument when one exists (the regex match, tried leftmost),
and the raw argument unchanged when none exists; in particular the two
spec examples evaluate as stated. -/
theorem C7_extractEmailAddress_spec :
    extractEmailAddress "John Doe <john@x.com>" = "john@x.com" ∧
    extractEmailAddress "not-an-email" = "not-an-email" ∧
    ∀ s : String,
      extractEmailAddress s = ((findFirstEmail s.data).map String.mk).getD s := by
  refine ⟨by decide, by decide, ?_⟩
  intro s
  by_cases h : s.data.isEmpty = true
  · have hS : s = "" := eq_empty_of_strEmpty s h
    subst hS
    decide
  · rw [Bool.not_eq_true] at h
    unfold extractEmailAddress strEmpty
    rw [h]
    simp only [Bool.false_eq_true, if_false]
    cases hf : findFirstEmail s.data <;> simp

set_option maxRecDepth 16384

/-- Claim C3: the claim asserts that every backend-originating string
inserted into HTML is escaped.  escapeHtml itself meets its spec example
(first conjunct), but the email list template interpolates the raw id
field: with the malicious id of evilEmail the rendered list item contains
a raw script tag (second conjunct) which escaping would have prevented
(third conjunct).  The platform, threadId and the chat source webUrl
interpolations are likewise unescaped in the source. -/
theorem C3_unescaped_id_injection :
    escapeHtml escTestInput = "&lt;script&gt;&amp;&quot;&#039;" ∧
    containsSub "<script>".data (listItemHtml evilEmail "N/A").data = true ∧
    containsSub "<script>".data (escapeHtml evilId).data = false := by
  exact ⟨by decide, by decide, by decide⟩

/-- The payload of a successful /email-details response (the fields the
client reads). -/
structure EmailDetails where
  from_ : String
  subject : String
  body : String
  in_reply_to_header : String
  references_header : String
deriving DecidableEq

/-- The currentEmailForReply object (script.js lines 175-183). -/
structure SelectedEmail where
  platform : String
  id : String
  threadId : String
  messageIdHeader : String
  referencesHeader : String
  inReplyToHeader : String
  fullDetails : Option EmailDetails
deriving DecidableEq

/-- The data attributes carried by a draft-reply button. -/
structure ButtonData where
  platform : String
  id : String
  threadId : String
  messageIdHeader : String
  referencesHeader : String
  inReplyToHeader : String
deriving DecidableEq

/-- The shared modal DOM state: the three read-only display fields, the
three editable reply fields, the status banner (message and alert type)
and the disabled flags of the send and regenerate controls. -/
structure ModalState where
  originalSender : String
  originalSubject : String
  originalBody : String
  replyTo : String
  replySubject : String
  replyBody : String
  statusMsg : String
  statusType : String
  sendDisabled : Bool
  regenDisabled : Bool
  modalShown : Bool
deriving DecidableEq

/-- The client state the reply workflow owns. -/
structure AppState where
  current : Option SelectedEmail
  modal : ModalState
deriving DecidableEq

/-- A network request issued by the workflow, with the data the client
puts in it. -/
inductive Request where
  | emailDetails (platform id : String)
  | draftAiReply (platform userName sender subject body : String)
  | sendPlatformReply
      (platform originalMessageId originalThreadId to_ subject body
        inReplyToHeader referencesHeader : String)
  | listInbox
deriving DecidableEq

/-- Outcome of the /email-details fetch, as the client observes it:
a rejected fetch, a non-ok HTTP status whose body yields the error field
err (the source substitutes a fixed text when the body fails to parse),
an ok response whose payload is empty or carries an error field, or the
details payload. -/
inductive DetailsOutcome where
  | reject (msg : String)
  | httpError (status : Nat) (err : String)
  | okError (err : String)
  | okDetails (d : EmailDetails)
deriving DecidableEq

/-- Outcome of the /draft-ai-reply fetch: a rejection (network failure or
unparseable body), or a response with its ok flag and the draft and error
fields of its JSON body (empty string standing for an absent field). -/
inductive DraftOutcome where
  | reject (msg : String)
  | response (ok : Bool) (draft : String) (err : String)
deriving DecidableEq

/-- Outcome of the /send-platform-reply fetch: a rejection, or a response
with its ok flag and the status and message fields of its JSON body. -/
inductive SendOutcome where
  | reject (msg : String)
  | response (ok : Bool) (status : String) (message : String)
deriving DecidableEq

/-- Whether the details outcome takes the error path of the click handler
(script.js lines 200-209: non-ok status, empty payload, or payload with
an error field all throw). -/
def detailsFailed : DetailsOutcome → Bool
  | .okDetails _ => false
  | _ => true

/-- The message of the Error thrown on each details failure
(script.js lines 203 and 208). -/
def detailsErrMsg : DetailsOutcome → String
  | .reject m => m
  | .httpError status err => "Could not fetch details: " ++ toString status ++ " - " ++ err
  | .okError err =>
      jsOr err "Email details response from backend was empty or contained an error."
  | .okDetails _ => ""

/-- USER_NAME_FOR_PROMPT, script.js line 26. -/
def USER_NAME_FOR_PROMPT : String := "Khurram"

/-- The modal state written synchronously at the start of a draft-reply
click (script.js lines 185-196): loading placeholders, the info banner,
both controls disabled, modal shown. -/
def loadingModal : ModalState :=
  { originalSender := "Loading...", originalSubject := "Loading...",
    originalBody := "Loading...", replyTo := "", replySubject := "",
    replyBody := "AI is drafting... Please wait.",
    statusMsg := "Loading email details and drafting reply...",
    statusType := "info",
    sendDisabled := true, regenDisabled := true, modalShown := true }

/-- The fresh SelectedEmail built from a clicked button's data attributes
(script.js lines 175-183). -/
def selOfBtn (btn : ButtonData) : SelectedEmail :=
  { platform := btn.platform, id := btn.id, threadId := btn.threadId,
    messageIdHeader := btn.messageIdHeader,
    referencesHeader := btn.referencesHeader,
    inReplyToHeader := btn.inReplyToHeader, fullDetails := none }

/-- One whole draft-reply click flow in isolation (script.js lines
172-248), as a function of the outcomes of its two network calls.  The
returned request list is in issue order; the draft request exists only in
the continuation that runs after the details fetch resolved successfully,
so it follows the details request in every trace.  All paths flow through
the finally block that re-enables both controls. -/
def draftReplyClick (btn : ButtonData) (details : DetailsOutcome)
    (draft : DraftOutcome) : AppState × List Request :=
  let sel := selOfBtn btn
  let detailsReq := Request.emailDetails btn.platform btn.id
  match details with
  | .okDetails d =>
    let sel1 := { sel with fullDetails := some d }
    let m1 := { loadingModal with
      originalSender := escapeHtml d.from_,
      originalSubject := escapeHtml d.subject,
      originalBody := escapeHtml d.body,
      replyTo := extractEmailAddress d.from_,
      replySubject := prefillReplySubject d.subject }
    let draftReq :=
      Request.draftAiReply sel1.platform USER_NAME_FOR_PROMPT d.from_ d.subject d.body
    match draft with
    | .response ok dr er =>
      if ok && !strEmpty dr then
        ({ current := some sel1,
           modal := { m1 with
             replyBody := dr,
             statusMsg := "AI draft generated!", statusType := "success",
             sendDisabled := false, regenDisabled := false } },
         [detailsReq, draftReq])
      else
        ({ current := some sel1,
           modal := { m1 with
             replyBody := "Error generating draft: " ++ jsOr er "Unknown error",
             statusMsg := "Error from AI drafter: " ++ jsOr er "Unknown error",
             statusType := "danger",
             sendDisabled := false, regenDisabled := false } },
         [detailsReq, draftReq])
    | .reject msg =>
        ({ current := some sel1,
           modal := { m1 with
             replyBody := "Error: " ++ msg,
             statusMsg := "Error during drafting process: " ++ msg,
             statusType := "danger",
             sendDisabled := false, regenDisabled := false } },
         [detailsReq, draftReq])
  | e =>
      ({ current := some sel,
         modal := { loadingModal with
           replyBody := "Error: " ++ detailsErrMsg e,
           statusMsg := "Error during drafting process: " ++ detailsErrMsg e,
           statusType := "danger",
           sendDisabled := false, regenDisabled := false } },
       [detailsReq])

/-- The regenerate click handler (script.js lines 250-286) as a function
of the state and the outcome of its one network call. -/
def regenerateClick (st : AppState) (o : DraftOutcome) : AppState × List Request :=
  match st.current with
  | some sel =>
    match sel.fullDetails with
    | some d =>
      let req :=
        Request.draftAiReply sel.platform USER_NAME_FOR_PROMPT d.from_ d.subject d.body
      match o with
      | .response ok dr er =>
        if ok && !strEmpty dr then
          ({ st with modal := { st.modal with
               replyBody := dr,
               statusMsg := "AI draft regenerated!", statusType := "success",
               sendDisabled := false, regenDisabled := false } }, [req])
        else
          ({ st with modal := { st.modal with
               replyBody := "Error regenerating draft: " ++ jsOr er "Unknown error",
               statusMsg := "Error from AI drafter: " ++ jsOr er "Unknown error",
               statusType := "danger",
               sendDisabled := false, regenDisabled := false } }, [req])
      | .reject msg =>
          ({ st with modal := { st.modal with
               replyBody := "Error regenerating draft: " ++ msg,
               statusMsg := "Could not connect to AI drafter: " ++ msg,
               statusType := "danger",
               sendDisabled := false, regenDisabled := false } }, [req])
    | none =>
      ({ st with modal := { st.modal with
           statusMsg := "Original email data not available to regenerate draft. Please close and retry.",
           statusType := "warning" } }, [])
  | none =>
      ({ st with modal := { st.modal with
           statusMsg := "Original email data not available to regenerate draft. Please close and retry.",
           statusType := "warning" } }, [])

/-- The send click handler (script.js lines 288-335) as a function of the
state and the outcome of its one network call.  On the success path the
source shows the success banner, schedules the modal to hide and reloads
the inbox, leaving both controls disabled; only the failure branches
re-enable them. -/
def sendClick (st : AppState) (o : SendOutcome) : AppState × List Request :=
  match st.current with
  | none =>
      ({ st with modal := { st.modal with
           statusMsg := "Error: No email context for sending reply.",
           statusType := "danger" } }, [])
  | some sel =>
    match sel.fullDetails with
    | none =>
        ({ st with modal := { st.modal with
             statusMsg := "Error: No email context for sending reply.",
             statusType := "danger" } }, [])
    | some d =>
      let to_ := jsTrim st.modal.replyTo
      let subject := jsTrim st.modal.replySubject
      let body := jsTrim st.modal.replyBody
      if strEmpty to_ || strEmpty subject || strEmpty body then
        ({ st with modal := { st.modal with
             statusMsg := "To, Subject, and Body are required to send.",
             statusType := "warning" } }, [])
      else
        let req := Request.sendPlatformReply sel.platform sel.id sel.threadId
          to_ subject body d.in_reply_to_header d.references_header
        match o with
        | .response ok status message =>
          if ok && status == "success" then
            ({ st with modal := { st.modal with
                 statusMsg := "Reply sent successfully via " ++ sel.platform ++ "! "
                   ++ jsOr message "",
                 statusType := "success",
                 sendDisabled := true, regenDisabled := true } },
             [req, Request.listInbox])
          else
            ({ st with modal := { st.modal with
                 statusMsg := "Error sending reply: " ++ jsOr message "Unknown error from server",
                 statusType := "danger",
                 sendDisabled := false, regenDisabled := false } },
             [req])
        | .reject msg =>
            ({ st with modal := { st.modal with
                 statusMsg := "Failed to send reply: " ++ msg,
                 statusType := "danger",
                 sendDisabled := false, regenDisabled := false } },
             [req])

/-- Whether a send outcome takes a failure branch of the handler
(script.js line 320: success requires response.ok and status equal to
"success"). -/
def sendFailed : SendOutcome → Bool
  | .reject _ => true
  | .response ok status _ => !(ok && status == "success")

/-- Concrete fixture: a first inbox entry (email A). -/
def btnA : ButtonData :=
  { platform := "gmail", id := "idA", threadId := "tA",
    messageIdHeader := "mA", referencesHeader := "rA", inReplyToHeader := "iA" }

/-- Concrete fixture: a second inbox entry (email B). -/
def btnB : ButtonData :=
  { platform := "outlook", id := "idB", threadId := "tB",
    messageIdHeader := "mB", referencesHeader := "rB", inReplyToHeader := "iB" }

/-- Concrete fixture: details of email A. -/
def dA : EmailDetails :=
  { from_ := "alice@a.com", subject := "Subject A", body := "Body A",
    in_reply_to_header := "irA", references_header := "refA" }

/-- Concrete fixture: details of email B. -/
def dB : EmailDetails :=
  { from_ := "bob@b.com", subject := "Subject B", body := "Body B",
    in_reply_to_header := "irB", references_header := "refB" }

/-- Concrete fixture: email B selected with its details loaded. -/
def selB : SelectedEmail := { selOfBtn btnB with fullDetails := some dB }

/-- Concrete fixture: a filled-in reply form for email B. -/
def goodModal : ModalState :=
  { loadingModal with
    replyTo := "bob@b.com", replySubject := "Re: Subject B",
    replyBody := "Thanks, see you then." }

/-- Concrete fixture: the state from which a send can be attempted. -/
def goodState : AppState := { current := some selB, modal := goodModal }

/-- Concrete fixture: same state but with a whitespace-only reply body. -/
def emptyBodyState : AppState :=
  { current := some selB, modal := { goodModal with replyBody := "   " } }

/-- Concrete fixture: email B selected but its details never loaded. -/
def noDetailsState : AppState :=
  { current := some (selOfBtn btnB), modal := goodModal }

/-- Claim C2 counterexample: on the success outcome of the send call the
handler completes with both controls still disabled (the source has no
finally block there and only the failure branches re-enable), refuting
that every outcome of every call site re-enables them in a cleanup
step. -/
theorem C2_send_success_leaves_disabled :
    (sendClick goodState (SendOutcome.response true "success" "Sent")).1.modal.sendDisabled
      = true ∧
    (sendClick goodState (SendOutcome.response true "success" "Sent")).1.modal.regenDisabled
      = true ∧
    (sendClick goodState (SendOutcome.response true "success" "Sent")).2 ≠ [] := by
  exact ⟨by decide, by decide, by decide⟩

/-- Claim C2 as amended: the details-and-draft flow re-enables both
controls on every outcome; the regenerate handler re-enables them on
every outcome in which it issued its network call; the send handler
re-enables them on every failure outcome in which it issued its call,
while its success outcome leaves them disabled and closes the modal
instead. -/
theorem C2_controls_reenabled_amended :
    (∀ (btn : ButtonData) (details : DetailsOutcome) (draft : DraftOutcome),
      (draftReplyClick btn details draft).1.modal.sendDisabled = false ∧
      (draftReplyClick btn details draft).1.modal.regenDisabled = false) ∧
    (∀ (st : AppState) (o : DraftOutcome),
      (regenerateClick st o).2 ≠ [] →
      (regenerateClick st o).1.modal.sendDisabled = false ∧
      (regenerateClick st o).1.modal.regenDisabled = false) ∧
    (∀ (st : AppState) (o : SendOutcome),
      (sendClick st o).2 ≠ [] → sendFailed o = true →
      (sendClick st o).1.modal.sendDisabled = false ∧
      (sendClick st o).1.modal.regenDisabled = false) := by
  refine ⟨?_, ?_, ?_⟩
  · intro btn details draft
    cases details <;> cases draft <;>
      (simp only [draftReplyClick]; try split) <;> simp
  · intro st o h
    rcases st with ⟨cur, modal⟩
    cases cur with
    | none => simp [regenerateClick] at h
    | some sel =>
      cases hsel : sel.fullDetails with
      | none => simp [regenerateClick, hsel] at h
      | some d =>
        cases o <;> (simp only [regenerateClick, hsel]; try split) <;> simp
  · intro st o h hfail
    rcases st with ⟨cur, modal⟩
    cases cur with
    | none => simp [sendClick] at h
    | some sel =>
      cases hsel : sel.fullDetails with
      | none => simp [sendClick, hsel] at h
      | some d =>
        by_cases hempty :
            (strEmpty (jsTrim modal.replyTo) || strEmpty (jsTrim modal.replySubject) ||
              strEmpty (jsTrim modal.replyBody)) = true
        · simp [sendClick, hsel, hempty] at h
        · rw [Bool.not_eq_true] at hempty
          cases o with
          | reject msg => simp only [sendClick, hsel, hempty] ; exact ⟨rfl, rfl⟩
          | response ok status message =>
            have hcond : (ok && status == "success") = false := by
              cases hb : (ok && status == "success") with
              | false => rfl
              | true => exact absurd hfail (by simp [sendFailed, hb])
            simp only [sendClick, hsel, hempty, hcond]
            exact ⟨rfl, rfl⟩

/-- Claim C2 witness: a concrete failed send from a valid state leaves
both controls re-enabled. -/
theorem C2_controls_reenabled_witness :
    (sendClick goodState (SendOutcome.reject "network down")).1.modal.sendDisabled = false ∧
    (sendClick goodState (SendOutcome.reject "network down")).1.modal.regenDisabled = false :=
  C2_controls_reenabled_amended.2.2 goodState (SendOutcome.reject "network down")
    (by decide) (by decide)

/-- Claim C4: within one triggered flow, a details failure issues no draft
request and surfaces the error in the status banner and the body field,
while a details success issues the draft request strictly after the
details request (the trace is in issue order, and the sequential
embedding reflects that the draft fetch starts only in the continuation
that runs after the details fetch resolved). -/
theorem C4_details_precede_draft (btn : ButtonData) (details : DetailsOutcome)
    (draft : DraftOutcome) :
    (detailsFailed details = true →
      (draftReplyClick btn details draft).2 = [Request.emailDetails btn.platform btn.id] ∧
      (draftReplyClick btn details draft).1.modal.statusType = "danger" ∧
      (draftReplyClick btn details draft).1.modal.statusMsg =
        "Error during drafting process: " ++ detailsErrMsg details ∧
      (draftReplyClick btn details draft).1.modal.replyBody =
        "Error: " ++ detailsErrMsg details) ∧
    (∀ d : EmailDetails, details = DetailsOutcome.okDetails d →
      (draftReplyClick btn details draft).2 =
        [Request.emailDetails btn.platform btn.id,
         Request.draftAiReply btn.platform USER_NAME_FOR_PROMPT d.from_ d.subject d.body]) := by
  constructor
  · intro h
    cases details <;> simp_all [draftReplyClick, detailsFailed]
  · intro d hd
    subst hd
    cases draft <;> (simp only [draftReplyClick, selOfBtn]; try split) <;> rfl

/-- Claim C4 witness: a concrete HTTP failure of the details fetch issues
only the details request and shows the error. -/
theorem C4_details_precede_draft_witness :
    (draftReplyClick btnA (DetailsOutcome.httpError 500 "boom")
        (DraftOutcome.reject "unused")).2 =
      [Request.emailDetails btnA.platform btnA.id] ∧
    (draftReplyClick btnA (DetailsOutcome.httpError 500 "boom")
        (DraftOutcome.reject "unused")).1.modal.statusType = "danger" :=
  ⟨((C4_details_precede_draft btnA (DetailsOutcome.httpError 500 "boom")
      (DraftOutcome.reject "unused")).1 (by decide)).1,
   ((C4_details_precede_draft btnA (DetailsOutcome.httpError 500 "boom")
      (DraftOutcome.reject "unused")).1 (by decide)).2.1⟩

/-- Claim C5: from any state with a selected email whose details are
loaded, if the trimmed reply-to, subject or body is empty then clicking
send sets the warning banner, changes nothing else and issues no network
request. -/
theorem C5_empty_fields_block_send (st : AppState) (o : SendOutcome)
    (sel : SelectedEmail) (d : EmailDetails)
    (h1 : st.current = some sel) (h2 : sel.fullDetails = some d)
    (h3 : (strEmpty (jsTrim st.modal.replyTo) || strEmpty (jsTrim st.modal.replySubject) ||
           strEmpty (jsTrim st.modal.replyBody)) = true) :
    sendClick st o =
      ({ st with modal := { st.modal with
           statusMsg := "To, Subject, and Body are required to send.",
           statusType := "warning" } }, []) := by
  rcases st with ⟨cur, modal⟩
  cases cur with
  | none => exact absurd h1 (by simp)
  | some sel2 =>
    have hsel : sel2 = sel := by simpa using h1
    subst hsel
    simp only [sendClick, h2]
    simp only at h3
    rw [h3]
    simp

/-- Claim C5 witness: with a whitespace-only body the send click only sets
the warning banner and issues nothing. -/
theorem C5_empty_fields_block_send_witness :
    sendClick emptyBodyState (SendOutcome.reject "unused") =
      ({ emptyBodyState with modal := { emptyBodyState.modal with
           statusMsg := "To, Subject, and Body are required to send.",
           statusType := "warning" } }, []) :=
  C5_empty_fields_block_send emptyBodyState (SendOutcome.reject "unused") selB dB
    rfl rfl (by decide)

/-- Claim C8: whenever no email is selected or the selected email's
details never loaded, the regenerate click sets only the warning banner
and issues no network request. -/
theorem C8_regenerate_requires_details (st : AppState) (o : DraftOutcome)
    (h : st.current = none ∨ ∃ sel, st.current = some sel ∧ sel.fullDetails = none) :
    regenerateClick st o =
      ({ st with modal := { st.modal with
           statusMsg := "Original email data not available to regenerate draft. Please close and retry.",
           statusType := "warning" } }, []) := by
  rcases st with ⟨cur, modal⟩
  rcases h with h | ⟨sel, h1, h2⟩
  · have hc : cur = none := by simpa using h
    subst hc
    rfl
  · have hc : cur = some sel := by simpa using h1
    subst hc
    simp only [regenerateClick, h2]

/-- Claim C8 witness: regenerating while the selected email's details are
absent only warns. -/
theorem C8_regenerate_requires_details_witness :
    regenerateClick noDetailsState (DraftOutcome.reject "unused") =
      ({ noDetailsState with modal := { noDetailsState.modal with
           statusMsg := "Original email data not available to regenerate draft. Please close and retry.",
           statusType := "warning" } }, []) :=
  C8_regenerate_requires_details noDetailsState (DraftOutcome.reject "unused")
    (Or.inr ⟨selOfBtn btnB, rfl, rfl⟩)

/-- One entry of the chat history array in chat_script.js. -/
structure ChatMsg where
  role : String
  content : String
deriving DecidableEq

/-- The append-and-trim step of chat_script.js lines 154-157: push the
user and assistant entries, then if the array holds more than 20 entries
splice off the oldest down to 20. -/
def chatAppendTrim (hist : List ChatMsg) (query resp : String) : List ChatMsg :=
  let h := hist ++
    [{ role := "user", content := query }, { role := "ai", content := resp }]
  if h.length > 20 then h.drop (h.length - 20) else h

/-- The suffix of the last n entries of a list (everything when the list
is no longer than n). -/
def lastN (n : Nat) (l : List α) : List α := l.drop (l.length - n)

/-- The append-and-trim step always yields the last 20 entries of the
appended history. -/
lemma chatAppendTrim_eq_lastN (hist : List ChatMsg) (q r : String) :
    chatAppendTrim hist q r =
      lastN 20 (hist ++
        [{ role := "user", content := q }, { role := "ai", content := r }]) := by
  unfold chatAppendTrim lastN
  set h2 := hist ++
    ([{ role := "user", content := q }, { role := "ai", content := r }] : List ChatMsg)
  by_cases h : h2.length > 20
  · rw [if_pos h]
  · rw [if_neg h, Nat.sub_eq_zero_of_le (by omega), List.drop_zero]

/-- lastN keeps at most n entries. -/
lemma lastN_length_le (n : Nat) (l : List α) : (lastN n l).length ≤ n := by
  simp only [lastN, List.length_drop]
  omega

/-- Taking the last n of a list whose front was already cut to its last n
gives the same as cutting the whole list. -/
lemma lastN_append (n : Nat) (F t : List α) :
    lastN n (lastN n F ++ t) = lastN n (F ++ t) := by
  unfold lastN
  rcases le_or_lt F.length n with h | h
  · rw [Nat.sub_eq_zero_of_le h, List.drop_zero]
  · have hlen : (F.drop (F.length - n)).length = n := by
      rw [List.length_drop]
      omega
    have e1 : n + t.length - n = t.length := by omega
    have e2 : F.length + t.length - n = F.length - n + t.length := by omega
    have hR : (F ++ t).drop (F.length + t.length - n) =
        (F.drop (F.length - n) ++ t).drop t.length := by
      rw [e2, ← List.drop_drop, List.drop_append_of_le_length (Nat.sub_le _ _)]
    simp only [List.length_append]
    rw [hlen, e1, hR]

/-- The full, untrimmed transcript of a list of exchanges. -/
def chatFlat (exs : List (String × String)) : List ChatMsg :=
  exs.foldr
    (fun qr acc =>
      { role := "user", content := qr.1 } :: { role := "ai", content := qr.2 } :: acc)
    []

/-- The chat history after a sequence of successful exchanges, starting
from the empty array. -/
def runChat (exs : List (String × String)) : List ChatMsg :=
  exs.foldl (fun h qr => chatAppendTrim h qr.1 qr.2) []

/-- Folding the append-and-trim step over exchanges computes the last-20
suffix of the full transcript. -/
lemma runChat_aux (exs : List (String × String)) :
    ∀ h : List ChatMsg,
      exs.foldl (fun h qr => chatAppendTrim h qr.1 qr.2) (lastN 20 h) =
        lastN 20 (h ++ chatFlat exs) := by
  induction exs with
  | nil => intro h; simp [chatFlat]
  | cons qr exs ih =>
    intro h
    simp only [List.foldl_cons]
    rw [chatAppendTrim_eq_lastN, lastN_append, ih, List.append_assoc]
    rfl

/-- Claim C9: after any sequence of successful exchanges the history
holds at most 20 entries, and it is exactly the suffix of the most recent
entries of the full transcript (entries are appended in user-assistant
pairs, so the 20 entries are the last 10 exchanges). -/
theorem C9_history_bounded (exs : List (String × String)) :
    (runChat exs).length ≤ 20 ∧ runChat exs = lastN 20 (chatFlat exs) := by
  have h0 := runChat_aux exs []
  have h1 : lastN 20 ([] : List ChatMsg) = [] := rfl
  rw [h1, List.nil_append] at h0
  refine ⟨?_, h0⟩
  rw [runChat, h0]
  exact lastN_length_le 20 _

/-- Outcome of the /chat-with-sp-docs fetch: a rejection (network failure
or unparseable body), or a response with its ok flag and the response and
error fields of its JSON body (empty string standing for an absent
field). -/
inductive ChatOutcome where
  | reject (msg : String)
  | response (ok : Bool) (resp : String) (err : String)
deriving DecidableEq

/-- handleUserMessage from chat_script.js lines 131-169, as a function of
the history, the raw input and the outcome of the chat request.  Returns
the new history and the transcript of messages displayed in the chat
pane (sender, text).  The history is extended, and trimmed, only in the
success branch. -/
def handleUserMessage (hist : List ChatMsg) (rawInput : String) (o : ChatOutcome) :
    List ChatMsg × List (String × String) :=
  let query := jsTrim rawInput
  if strEmpty query then (hist, [])
  else
    match o with
    | .reject msg => (hist, [("user", query), ("ai", "Error: " ++ msg)])
    | .response ok resp err =>
      if ok && !strEmpty resp then
        (chatAppendTrim hist query resp, [("user", query), ("ai", resp)])
      else
        (hist,
         [("user", query), ("ai", "Error: " ++ jsOr err "Could not get a response.")])

/-- Whether a chat outcome takes a failure branch (chat_script.js line
152: success requires response.ok and a truthy response field). -/
def chatFailed : ChatOutcome → Bool
  | .reject _ => true
  | .response ok resp _ => !(ok && !strEmpty resp)

/-- Claim C10: every failed chat exchange (rejection, non-ok status, or a
payload without a response field) leaves the history array unchanged, so
the history sent to the backend records only successful exchanges. -/
theorem C10_failed_chat_keeps_history (hist : List ChatMsg) (raw : String)
    (o : ChatOutcome) (h : chatFailed o = true) :
    (handleUserMessage hist raw o).1 = hist := by
  unfold handleUserMessage
  by_cases hq : strEmpty (jsTrim raw) = true
  · simp [hq]
  · rw [Bool.not_eq_true] at hq
    cases o with
    | reject msg => simp [hq]
    | response ok resp err =>
      have hcond : (ok && !strEmpty resp) = false := by
        cases hb : (ok && !strEmpty resp) with
        | false => rfl
        | true => exact absurd h (by simp [chatFailed, hb])
      simp [hq, hcond]

/-- Claim C10 witness: a concrete rejected chat request leaves a concrete
two-entry history unchanged. -/
theorem C10_failed_chat_keeps_history_witness :
    (handleUserMessage
        [{ role := "user", content := "hi" }, { role := "ai", content := "hello" }]
        "What time is the meeting" (ChatOutcome.reject "connection refused")).1 =
      [{ role := "user", content := "hi" }, { role := "ai", content := "hello" }] :=
  C10_failed_chat_keeps_history _ _ _ (by decide)

/-- Where one draft-reply click flow stands: at its first await (details
fetch), at its second await holding its flow-local details constant, or
finished. -/
inductive FlowStage where
  | awaitingDetails
  | awaitingDraft (d : EmailDetails)
  | done
deriving DecidableEq

/-- One suspended draft-reply flow: the button data it captured
synchronously and its stage. -/
structure FlowRec where
  btn : ButtonData
  stage : FlowStage
deriving DecidableEq

/-- Events of the single-threaded UI event loop: a click on a draft-reply
button runs the handler's synchronous prefix; a response event runs the
matching flow's continuation.  In-flight requests are never cancelled, so
responses of a superseded flow still arrive and are dispatched. -/
inductive Ev where
  | click (btn : ButtonData)
  | detailsResp (i : Nat) (o : DetailsOutcome)
  | draftResp (i : Nat) (o : DraftOutcome)
deriving DecidableEq

/-- The page state shared by all flows (the module variable
currentEmailForReply and the single modal), the suspended flows and the
log of issued requests. -/
structure Machine where
  current : Option SelectedEmail
  modal : ModalState
  flows : List FlowRec
  reqs : List Request
deriving DecidableEq

/-- The initial page state: nothing selected, modal empty and hidden. -/
def initModal : ModalState :=
  { originalSender := "", originalSubject := "", originalBody := "",
    replyTo := "", replySubject := "", replyBody := "",
    statusMsg := "", statusType := "",
    sendDisabled := false, regenDisabled := false, modalShown := false }

/-- One event-loop step, transcribing script.js lines 172-248.  A click
replaces currentEmailForReply wholesale and resets the modal (lines
175-196), then issues the details fetch.  A details response for a flow
still at its first await runs lines 200-230: on success the continuation
assigns fullDetails through the shared currentEmailForReply variable
(line 211) - mutating whichever selection is current NOW - writes the
shared modal fields from its flow-local details, and issues the draft
request reading platform from the shared variable (line 224); on failure
the catch and finally blocks write the shared modal.  A draft response
for a flow at its second await runs lines 231-246 against the shared
modal.  Responses for flows in any other stage cannot occur and leave the
state unchanged. -/
def stepEv (m : Machine) (e : Ev) : Machine :=
  match e with
  | .click btn =>
    { current := some (selOfBtn btn),
      modal := loadingModal,
      flows := m.flows ++ [{ btn := btn, stage := .awaitingDetails }],
      reqs := m.reqs ++ [Request.emailDetails btn.platform btn.id] }
  | .detailsResp i o =>
    match m.flows.get? i with
    | some fl =>
      match fl.stage with
      | .awaitingDetails =>
        match o with
        | .okDetails d =>
          let current1 := m.current.map fun s => { s with fullDetails := some d }
          let platformNow := (current1.map SelectedEmail.platform).getD ""
          { current := current1,
            modal := { m.modal with
              originalSender := escapeHtml d.from_,
              originalSubject := escapeHtml d.subject,
              originalBody := escapeHtml d.body,
              replyTo := extractEmailAddress d.from_,
              replySubject := prefillReplySubject d.subject },
            flows := m.flows.set i { fl with stage := .awaitingDraft d },
            reqs := m.reqs ++
              [Request.draftAiReply platformNow USER_NAME_FOR_PROMPT
                d.from_ d.subject d.body] }
        | failure =>
          { m with
            modal := { m.modal with
              replyBody := "Error: " ++ detailsErrMsg failure,
              statusMsg := "Error during drafting process: " ++ detailsErrMsg failure,
              statusType := "danger",
              sendDisabled := false, regenDisabled := false },
            flows := m.flows.set i { fl with stage := .done } }
      | _ => m
    | none => m
  | .draftResp i o =>
    match m.flows.get? i with
    | some fl =>
      match fl.stage with
      | .awaitingDraft _ =>
        match o with
        | .response ok dr er =>
          if ok && !strEmpty dr then
            { m with
              modal := { m.modal with
                replyBody := dr,
                statusMsg := "AI draft generated!", statusType := "success",
                sendDisabled := false, regenDisabled := false },
              flows := m.flows.set i { fl with stage := .done } }
          else
            { m with
              modal := { m.modal with
                replyBody := "Error generating draft: " ++ jsOr er "Unknown error",
                statusMsg := "Error from AI drafter: " ++ jsOr er "Unknown error",
                statusType := "danger",
                sendDisabled := false, regenDisabled := false },
              flows := m.flows.set i { fl with stage := .done } }
        | .reject msg =>
            { m with
              modal := { m.modal with
                replyBody := "Error: " ++ msg,
                statusMsg := "Error during drafting process: " ++ msg,
                statusType := "danger",
                sendDisabled := false, regenDisabled := false },
              flows := m.flows.set i { fl with stage := .done } }
      | _ => m
    | none => m

/-- Run the event loop from the initial page state. -/
def runEvents (evs : List Ev) : Machine :=
  evs.foldl stepEv { current := none, modal := initModal, flows := [], reqs := [] }

/-- Two rapid clicks (email A then email B) with network reordering: B's
details arrive first, then A's stale details, then both draft responses,
B's first.  Every response of both flows is processed. -/
def staleEvents : List Ev :=
  [Ev.click btnA, Ev.click btnB,
   Ev.detailsResp 1 (DetailsOutcome.okDetails dB),
   Ev.detailsResp 0 (DetailsOutcome.okDetails dA),
   Ev.draftResp 1 (DraftOutcome.response true "Draft for B" ""),
   Ev.draftResp 0 (DraftOutcome.response true "Draft for A" "")]

/-- Claim C1: the claim asserts that a stale in-flight response from a
superseded flow is detected and discarded, so after both flows finish the
modal reflects only the second email.  The source has no such guard: in
the staleEvents schedule the selection is email B (idB), yet email A's
stale details response has overwritten the modal sender field and even
the cached fullDetails of B's own SelectedEmail with A's data, and A's
late draft response has overwritten B's draft in the reply body - a mixed
final state. -/
theorem C1_stale_response_overwrites :
    ((runEvents staleEvents).current.map SelectedEmail.id) = some "idB" ∧
    (runEvents staleEvents).modal.originalSender = "alice@a.com" ∧
    (runEvents staleEvents).modal.replyTo = "alice@a.com" ∧
    (runEvents staleEvents).modal.replyBody = "Draft for A" ∧
    (((runEvents staleEvents).current.bind SelectedEmail.fullDetails).map
        EmailDetails.from_) = some "alice@a.com" := by
  exact ⟨by decide, by decide, by decide, by decide, by decide⟩

end EmailUC
